import Mathlib

/-!
Formal model of the stockHunter FastAPI gateway (`fastapi-gateway/main.py`).

The gateway validates a multi-criteria screening request, forwards it to a
downstream Kotlin screening engine over HTTP, and translates the downstream
response, timeout, or connection failure into a client-facing HTTP response.

Modelling conventions:
* JSON values are a small inductive `Json`; floats in the pydantic model are
  embedded as `Rat`, integers as `Int`.
* An inbound request body is a record of `Option` fields (`none` = field
  absent from the payload); pydantic validation is the function
  `validateScreening` (resp. `validateCredentialsPayload`), which collects the
  names of all offending fields, mirroring the `Field(...)` bounds declared in
  `ScreeningRequest` / `CredentialsRequest`.
* A downstream HTTP interaction is a `DownstreamBehavior`: the call either
  raises `httpx.TimeoutException`, raises `httpx.ConnectError`, raises some
  other exception, or yields a response with a status code and a body whose
  text is empty, unparseable, or valid JSON.
* A route handler either returns a value (FastAPI serializes it with
  status 200) or raises `HTTPException`; the registered
  `http_exception_handler` then renders `{"error": detail, "timestamp": ...}`.
  The wall-clock timestamp is a `String` parameter.
-/

/-- JSON values, as produced and consumed by the gateway. Python's `json`
parser distinguishes integer from floating literals, so numbers carry that
distinction here. -/
inductive Json where
  | null : Json
  | bool : Bool → Json
  | int : Int → Json
  | float : Rat → Json
  | str : String → Json
  | arr : List Json → Json
  | obj : List (String × Json) → Json

/-- Whether a JSON object has a field of the given name (`false` on non-objects). -/
def Json.hasKey (j : Json) (key : String) : Bool :=
  match j with
  | .obj fields => fields.any (fun f => f.1 == key)
  | _ => false

/-- `dict.get(key, default)`: the value at `key` in a JSON object, or `d`. -/
def Json.getD (j : Json) (key : String) (d : Json) : Json :=
  match j with
  | .obj fields =>
    match fields.lookup key with
    | some v => v
    | none => d
  | _ => d

/-- Whether a parsed JSON value is an object, i.e. a Python `dict` — the only
values on which calling `.get(...)` does not raise. -/
def Json.isObj : Json → Bool
  | .obj _ => true
  | _ => false

/-- The Python type name of a parsed JSON value, as it appears in exception
text. -/
def Json.pyType : Json → String
  | .null => "NoneType"
  | .bool _ => "bool"
  | .int _ => "int"
  | .float _ => "float"
  | .str _ => "str"
  | .arr _ => "list"
  | .obj _ => "dict"

/-- `str()` of the `AttributeError` raised by calling `.get(...)` on a parsed
JSON value that is not a dict. -/
def attributeErrorGet (j : Json) : String :=
  "'" ++ j.pyType ++ "' object has no attribute 'get'"

/-- An HTTP response as seen by the gateway's client: status code and JSON body. -/
structure HttpResponse where
  status : Nat
  body : Json

/-- The body of a downstream HTTP response, as `httpx` exposes it:
empty text, non-empty text that is not valid JSON (`response.json()` raises a
decode error whose `str()` is `emsg`), or a parsed JSON value. -/
inductive RespBody where
  | empty : RespBody
  | unparseable : String → RespBody
  | json : Json → RespBody

/-- One downstream HTTP call attempt, from the gateway's side: `httpx` either
raises `TimeoutException`, raises `ConnectError`, raises some other exception
(with `str(e) = emsg`), or delivers a response. -/
inductive DownstreamBehavior where
  | timeout : String → DownstreamBehavior
  | connectError : String → DownstreamBehavior
  | otherExn : String → DownstreamBehavior
  | response : Nat → RespBody → DownstreamBehavior

/-- What a route handler body produces: a returned value (FastAPI sends it
with status 200) or a raised `HTTPException (status_code, detail)`. -/
inductive HandlerResult where
  | ok : Json → HandlerResult
  | httpErr : Nat → Json → HandlerResult

/-- Raw body of a `POST /api/v1/screen` request: every field of the pydantic
`ScreeningRequest` model, `none` when absent from the JSON payload. -/
structure RawScreeningPayload where
  appKey : Option String := none
  appSecret : Option String := none
  isProduction : Option Bool := none
  ma60Enabled : Option Bool := none
  ma60Min : Option Int := none
  ma60Max : Option Int := none
  ma112Enabled : Option Bool := none
  ma112Min : Option Int := none
  ma112Max : Option Int := none
  ma224Enabled : Option Bool := none
  ma224Min : Option Int := none
  ma224Max : Option Int := none
  bbEnabled : Option Bool := none
  bbPeriod : Option Int := none
  bbMultiplier : Option Rat := none
  bbPosition : Option String := none
  bbUpperBreak : Option Bool := none
  bbLowerBreak : Option Bool := none
  volumeEnabled : Option Bool := none
  volumeMultiple : Option Rat := none
  priceChangeEnabled : Option Bool := none
  priceChangeMin : Option Rat := none
  priceChangeMax : Option Rat := none
  excludeETF : Option Bool := none
  excludeETN : Option Bool := none
  excludeManagement : Option Bool := none
  marketCapEnabled : Option Bool := none
  marketCapMin : Option Int := none
  marketCapMax : Option Int := none
  perEnabled : Option Bool := none
  perMin : Option Rat := none
  perMax : Option Rat := none
  maAlignment : Option Bool := none
  targetCodes : Option (List String) := none
deriving DecidableEq

/-- The validated `ScreeningRequest` pydantic model: every field populated,
absent fields replaced by the declared defaults. -/
structure ScreeningRequest where
  appKey : String
  appSecret : String
  isProduction : Bool
  ma60Enabled : Bool
  ma60Min : Int
  ma60Max : Int
  ma112Enabled : Bool
  ma112Min : Int
  ma112Max : Int
  ma224Enabled : Bool
  ma224Min : Int
  ma224Max : Int
  bbEnabled : Bool
  bbPeriod : Int
  bbMultiplier : Rat
  bbPosition : String
  bbUpperBreak : Bool
  bbLowerBreak : Bool
  volumeEnabled : Bool
  volumeMultiple : Rat
  priceChangeEnabled : Bool
  priceChangeMin : Rat
  priceChangeMax : Rat
  excludeETF : Bool
  excludeETN : Bool
  excludeManagement : Bool
  marketCapEnabled : Bool
  marketCapMin : Int
  marketCapMax : Int
  perEnabled : Bool
  perMin : Rat
  perMax : Rat
  maAlignment : Bool
  targetCodes : List String
deriving DecidableEq

/-- Names the field when a required (`Field(...)`) string field is absent. -/
def requiredErr (name : String) (v : Option String) : List String :=
  match v with
  | some _ => []
  | none => [name]

/-- Names the field when a present integer field violates `ge=lo, le=hi`. -/
def boundErrI (name : String) (v : Option Int) (lo hi : Int) : List String :=
  match v with
  | none => []
  | some x => if lo ≤ x ∧ x ≤ hi then [] else [name]

/-- Names the field when a present integer field violates `ge=lo`. -/
def geErrI (name : String) (v : Option Int) (lo : Int) : List String :=
  match v with
  | none => []
  | some x => if lo ≤ x then [] else [name]

/-- Names the field when a present float field violates `ge=lo, le=hi`. -/
def boundErrR (name : String) (v : Option Rat) (lo hi : Rat) : List String :=
  match v with
  | none => []
  | some x => if lo ≤ x ∧ x ≤ hi then [] else [name]

/-- Names the field when a present float field violates `ge=lo`. -/
def geErrR (name : String) (v : Option Rat) (lo : Rat) : List String :=
  match v with
  | none => []
  | some x => if lo ≤ x then [] else [name]

/-- The regex test of `bbPosition` against the anchored
pattern of all, upper, middle, lower. -/
def bbPositionOk (s : String) : Bool :=
  s == "all" || s == "upper" || s == "middle" || s == "lower"

/-- Names the field when a present `bbPosition` value is outside the enum set. -/
def patternErr (name : String) (v : Option String) : List String :=
  match v with
  | none => []
  | some s => if bbPositionOk s then [] else [name]

/-- All fields of a raw screening payload that fail their declared pydantic
constraint, in declaration order: `appKey`/`appSecret` are required, every
numeric bound and the `bbPosition` pattern are checked whenever the field is
present, unconditionally on the family's enable flag. -/
def screeningErrors (p : RawScreeningPayload) : List String :=
  requiredErr "appKey" p.appKey ++
  requiredErr "appSecret" p.appSecret ++
  boundErrI "ma60Min" p.ma60Min 0 200 ++
  boundErrI "ma60Max" p.ma60Max 0 200 ++
  boundErrI "ma112Min" p.ma112Min 0 200 ++
  boundErrI "ma112Max" p.ma112Max 0 200 ++
  boundErrI "ma224Min" p.ma224Min 0 200 ++
  boundErrI "ma224Max" p.ma224Max 0 200 ++
  boundErrI "bbPeriod" p.bbPeriod 5 100 ++
  boundErrR "bbMultiplier" p.bbMultiplier (1/2) 5 ++
  patternErr "bbPosition" p.bbPosition ++
  boundErrR "volumeMultiple" p.volumeMultiple (1/10) 10 ++
  boundErrR "priceChangeMin" p.priceChangeMin (-100) 100 ++
  boundErrR "priceChangeMax" p.priceChangeMax (-100) 100 ++
  geErrI "marketCapMin" p.marketCapMin 0 ++
  geErrI "marketCapMax" p.marketCapMax 0 ++
  geErrR "perMin" p.perMin 0 ++
  geErrR "perMax" p.perMax 0

/-- The validated model built from a payload with no constraint violations:
absent fields take the defaults declared in `ScreeningRequest`. -/
def fillScreening (p : RawScreeningPayload) : ScreeningRequest where
  appKey := p.appKey.getD ""
  appSecret := p.appSecret.getD ""
  isProduction := p.isProduction.getD false
  ma60Enabled := p.ma60Enabled.getD false
  ma60Min := p.ma60Min.getD 95
  ma60Max := p.ma60Max.getD 105
  ma112Enabled := p.ma112Enabled.getD true
  ma112Min := p.ma112Min.getD 95
  ma112Max := p.ma112Max.getD 105
  ma224Enabled := p.ma224Enabled.getD false
  ma224Min := p.ma224Min.getD 95
  ma224Max := p.ma224Max.getD 105
  bbEnabled := p.bbEnabled.getD false
  bbPeriod := p.bbPeriod.getD 20
  bbMultiplier := p.bbMultiplier.getD 2
  bbPosition := p.bbPosition.getD "all"
  bbUpperBreak := p.bbUpperBreak.getD false
  bbLowerBreak := p.bbLowerBreak.getD false
  volumeEnabled := p.volumeEnabled.getD false
  volumeMultiple := p.volumeMultiple.getD (3/2)
  priceChangeEnabled := p.priceChangeEnabled.getD false
  priceChangeMin := p.priceChangeMin.getD (-100)
  priceChangeMax := p.priceChangeMax.getD 100
  excludeETF := p.excludeETF.getD true
  excludeETN := p.excludeETN.getD true
  excludeManagement := p.excludeManagement.getD false
  marketCapEnabled := p.marketCapEnabled.getD false
  marketCapMin := p.marketCapMin.getD 0
  marketCapMax := p.marketCapMax.getD 1000000000000
  perEnabled := p.perEnabled.getD false
  perMin := p.perMin.getD 0
  perMax := p.perMax.getD 30
  maAlignment := p.maAlignment.getD false
  targetCodes := p.targetCodes.getD []

/-- Pydantic validation of the screening request body: the validated model
when no field violates its constraint, otherwise the list of offending
field names. -/
def validateScreening (p : RawScreeningPayload) :
    Except (List String) ScreeningRequest :=
  match screeningErrors p with
  | [] => .ok (fillScreening p)
  | errs => .error errs

/-- Raw body of a `POST /api/v1/validate-credentials` request: the fields of
the pydantic `CredentialsRequest` model, `none` when absent. -/
structure RawCredentialsPayload where
  appKey : Option String := none
  appSecret : Option String := none
deriving DecidableEq

/-- The validated `CredentialsRequest` pydantic model. -/
structure CredentialsRequest where
  appKey : String
  appSecret : String
deriving DecidableEq

/-- All fields of a raw credentials payload that fail validation: both string
fields are required, with no further constraint. -/
def credentialsErrors (p : RawCredentialsPayload) : List String :=
  requiredErr "appKey" p.appKey ++ requiredErr "appSecret" p.appSecret

/-- Pydantic validation of the credentials request body. -/
def validateCredentialsPayload (p : RawCredentialsPayload) :
    Except (List String) CredentialsRequest :=
  match credentialsErrors p with
  | [] => .ok ⟨p.appKey.getD "", p.appSecret.getD ""⟩
  | errs => .error errs

/-- FastAPI's default handler for `RequestValidationError`: a 422 response
whose body is an object with a `detail` list locating each offending field
(modelled by the field names) and no other key. -/
def validationErrorResponse (errs : List String) : HttpResponse :=
  ⟨422, .obj [("detail", .arr (errs.map Json.str))]⟩

/-- The registered `http_exception_handler`: a raised
`HTTPException (status_code, detail)` becomes a JSON response with the same
status and body `obj (error detail, timestamp now)`. A plainly returned value
is sent unchanged with status 200. -/
def renderResult (ts : String) : HandlerResult → HttpResponse
  | .ok j => ⟨200, j⟩
  | .httpErr s d => ⟨s, .obj [("error", d), ("timestamp", .str ts)]⟩

/-- The registered `general_exception_handler`: any exception that reaches it
becomes a 500 response with a fixed error string, the exception text under
`detail`, and a timestamp. -/
def general_exception_handler (ts emsg : String) : HttpResponse :=
  ⟨500, .obj [("error", .str "Internal server error"),
              ("detail", .str emsg),
              ("timestamp", .str ts)]⟩

/-- Detail of the 504 raised when the screen call times out. -/
def screenTimeoutDetail : String := "스크리닝 요청 시간 초과. 잠시 후 다시 시도해주세요."

/-- Detail of the 503 raised when the screen call cannot connect. -/
def screenConnectDetail : String := "스크리닝 서비스에 연결할 수 없습니다."

/-- `str()` of the `json.JSONDecodeError` raised by `response.json()` on an
empty response text. -/
def emptyTextDecodeError : String := "Expecting value: line 1 column 1 (char 0)"

/-- The body of the `screen_stocks` handler after validation, as a function of
the downstream call's behavior: a non-200 downstream response re-raises its
status with the downstream JSON body as detail (or `obj (error Unknown error)`
when the body text is empty); `TimeoutException` raises 504 with a fixed
message, `ConnectError` raises 503 with a fixed message, and any other
exception — a JSON decode failure on a non-empty body, or the
`AttributeError` from `result.get('matchedCount', 0)` when a 200 body parses
to a non-dict — raises 500 with the exception text appended to a fixed
prefix. -/
def screenOutcome : DownstreamBehavior → HandlerResult
  | .timeout _ => .httpErr 504 (.str screenTimeoutDetail)
  | .connectError _ => .httpErr 503 (.str screenConnectDetail)
  | .otherExn e => .httpErr 500 (.str ("스크리닝 중 오류 발생: " ++ e))
  | .response s b =>
    if s ≠ 200 then
      match b with
      | .empty => .httpErr s (.obj [("error", .str "Unknown error")])
      | .unparseable e => .httpErr 500 (.str ("스크리닝 중 오류 발생: " ++ e))
      | .json j => .httpErr s j
    else
      match b with
      | .empty => .httpErr 500 (.str ("스크리닝 중 오류 발생: " ++ emptyTextDecodeError))
      | .unparseable e => .httpErr 500 (.str ("스크리닝 중 오류 발생: " ++ e))
      | .json j =>
        if j.isObj then .ok j
        else .httpErr 500 (.str ("스크리닝 중 오류 발생: " ++ attributeErrorGet j))

/-- `POST /api/v1/screen` end to end: pydantic validation of the body, then
the `screen_stocks` handler with `down` giving the downstream call's behavior
for the forwarded request, then rendering through the exception handler. -/
def screen_stocks (p : RawScreeningPayload)
    (down : ScreeningRequest → DownstreamBehavior) (ts : String) : HttpResponse :=
  match validateScreening p with
  | .error errs => validationErrorResponse errs
  | .ok req => renderResult ts (screenOutcome (down req))

/-- The body of the `validate_credentials` handler: `response.json()` is
parsed before the status check, so an empty or unparseable body raises and is
caught by the blanket `except` (500); with a parsed body, status 200 answers
`valid true` (the parsed body is not consulted there), and any other status
calls `result.get("message", ...)` — on a dict body this answers
`valid false` with the downstream message field or a default at gateway
status 200, on a non-dict body it raises `AttributeError`, caught by the
blanket `except` (500). -/
def credentialsOutcome : DownstreamBehavior → HandlerResult
  | .timeout e => .httpErr 500 (.str ("인증 검증 중 오류 발생: " ++ e))
  | .connectError e => .httpErr 500 (.str ("인증 검증 중 오류 발생: " ++ e))
  | .otherExn e => .httpErr 500 (.str ("인증 검증 중 오류 발생: " ++ e))
  | .response s b =>
    match b with
    | .empty => .httpErr 500 (.str ("인증 검증 중 오류 발생: " ++ emptyTextDecodeError))
    | .unparseable e => .httpErr 500 (.str ("인증 검증 중 오류 발생: " ++ e))
    | .json j =>
      if s = 200 then
        .ok (.obj [("valid", .bool true), ("message", .str "인증 성공")])
      else
        match j with
        | .obj fields =>
          .ok (.obj [("valid", .bool false),
                     ("message", Json.getD (.obj fields) "message" (.str "인증 실패"))])
        | _ => .httpErr 500 (.str ("인증 검증 중 오류 발생: " ++ attributeErrorGet j))

/-- `POST /api/v1/validate-credentials` end to end. -/
def validate_credentials (p : RawCredentialsPayload)
    (down : CredentialsRequest → DownstreamBehavior) (ts : String) : HttpResponse :=
  match validateCredentialsPayload p with
  | .error errs => validationErrorResponse errs
  | .ok req => renderResult ts (credentialsOutcome (down req))

/-- The body of the `get_stock_codes` handler: on a non-200 downstream
response it raises `HTTPException (status, fixed message)`, but the handler's
own blanket `except Exception` catches that exception too (there is no
re-raise arm for `HTTPException`) and converts it — `str()` of an
`HTTPException` is `status: detail` — into a 500; every other exception also
becomes a 500 with the exception text. -/
def stockCodesOutcome : DownstreamBehavior → HandlerResult
  | .timeout e => .httpErr 500 (.str ("종목 코드 조회 중 오류 발생: " ++ e))
  | .connectError e => .httpErr 500 (.str ("종목 코드 조회 중 오류 발생: " ++ e))
  | .otherExn e => .httpErr 500 (.str ("종목 코드 조회 중 오류 발생: " ++ e))
  | .response s b =>
    if s ≠ 200 then
      .httpErr 500 (.str ("종목 코드 조회 중 오류 발생: " ++
        toString s ++ ": 종목 코드 조회 실패"))
    else
      match b with
      | .empty => .httpErr 500 (.str ("종목 코드 조회 중 오류 발생: " ++ emptyTextDecodeError))
      | .unparseable e => .httpErr 500 (.str ("종목 코드 조회 중 오류 발생: " ++ e))
      | .json j => .ok j

/-- `GET /api/v1/stock-codes` end to end (no request body). -/
def get_stock_codes (b : DownstreamBehavior) (ts : String) : HttpResponse :=
  renderResult ts (stockCodesOutcome b)

/-- The health probe's verdict: `kotlin_healthy` is true exactly when the
probe delivered a response with status 200; every exception is caught and
counts as unhealthy. -/
def kotlinHealthy : DownstreamBehavior → Bool
  | .response s _ => s == 200
  | _ => false

/-- `GET /health`: always a plainly returned dict, hence status 200; the
composite status is `healthy` or `degraded` from the probe verdict, the
gateway's own entry is the constant `healthy`. -/
def health_check (b : DownstreamBehavior) (ts : String) : HttpResponse :=
  ⟨200, .obj [("status", .str (if kotlinHealthy b then "healthy" else "degraded")),
              ("services", .obj [("gateway", .str "healthy"),
                ("kotlin_screener", .str (if kotlinHealthy b then "healthy" else "unhealthy"))]),
              ("timestamp", .str ts)]⟩

/-- A raw screening payload carries the named field with a value outside the
bound declared for it in `ScreeningRequest` (one constructor per constrained
field, `Field(ge=..., le=...)` or the `bbPosition` pattern). -/
inductive FieldOutOfBound : RawScreeningPayload → String → Prop where
  | ma60Min {p : RawScreeningPayload} {x : Int} :
      p.ma60Min = some x → ¬(0 ≤ x ∧ x ≤ 200) → FieldOutOfBound p "ma60Min"
  | ma60Max {p : RawScreeningPayload} {x : Int} :
      p.ma60Max = some x → ¬(0 ≤ x ∧ x ≤ 200) → FieldOutOfBound p "ma60Max"
  | ma112Min {p : RawScreeningPayload} {x : Int} :
      p.ma112Min = some x → ¬(0 ≤ x ∧ x ≤ 200) → FieldOutOfBound p "ma112Min"
  | ma112Max {p : RawScreeningPayload} {x : Int} :
      p.ma112Max = some x → ¬(0 ≤ x ∧ x ≤ 200) → FieldOutOfBound p "ma112Max"
  | ma224Min {p : RawScreeningPayload} {x : Int} :
      p.ma224Min = some x → ¬(0 ≤ x ∧ x ≤ 200) → FieldOutOfBound p "ma224Min"
  | ma224Max {p : RawScreeningPayload} {x : Int} :
      p.ma224Max = some x → ¬(0 ≤ x ∧ x ≤ 200) → FieldOutOfBound p "ma224Max"
  | bbPeriod {p : RawScreeningPayload} {x : Int} :
      p.bbPeriod = some x → ¬(5 ≤ x ∧ x ≤ 100) → FieldOutOfBound p "bbPeriod"
  | bbMultiplier {p : RawScreeningPayload} {x : Rat} :
      p.bbMultiplier = some x → ¬(1/2 ≤ x ∧ x ≤ 5) → FieldOutOfBound p "bbMultiplier"
  | bbPosition {p : RawScreeningPayload} {s : String} :
      p.bbPosition = some s → bbPositionOk s = false → FieldOutOfBound p "bbPosition"
  | volumeMultiple {p : RawScreeningPayload} {x : Rat} :
      p.volumeMultiple = some x → ¬(1/10 ≤ x ∧ x ≤ 10) → FieldOutOfBound p "volumeMultiple"
  | priceChangeMin {p : RawScreeningPayload} {x : Rat} :
      p.priceChangeMin = some x → ¬(-100 ≤ x ∧ x ≤ 100) → FieldOutOfBound p "priceChangeMin"
  | priceChangeMax {p : RawScreeningPayload} {x : Rat} :
      p.priceChangeMax = some x → ¬(-100 ≤ x ∧ x ≤ 100) → FieldOutOfBound p "priceChangeMax"
  | marketCapMin {p : RawScreeningPayload} {x : Int} :
      p.marketCapMin = some x → ¬(0 ≤ x) → FieldOutOfBound p "marketCapMin"
  | marketCapMax {p : RawScreeningPayload} {x : Int} :
      p.marketCapMax = some x → ¬(0 ≤ x) → FieldOutOfBound p "marketCapMax"
  | perMin {p : RawScreeningPayload} {x : Rat} :
      p.perMin = some x → ¬(0 ≤ x) → FieldOutOfBound p "perMin"
  | perMax {p : RawScreeningPayload} {x : Rat} :
      p.perMax = some x → ¬(0 ≤ x) → FieldOutOfBound p "perMax"

/-- A field outside its declared bound is reported by `screeningErrors`. -/
theorem mem_screeningErrors_of_oob {p : RawScreeningPayload} {name : String}
    (h : FieldOutOfBound p name) : name ∈ screeningErrors p := by
  cases h <;>
    simp_all [screeningErrors, requiredErr, boundErrI, geErrI, boundErrR, geErrR, patternErr]

/-- When some field is reported, validation returns the full error list. -/
theorem validateScreening_error_of_mem (p : RawScreeningPayload) {name : String}
    (hm : name ∈ screeningErrors p) :
    validateScreening p = .error (screeningErrors p) := by
  unfold validateScreening
  cases hE : screeningErrors p with
  | nil => rw [hE] at hm; cases hm
  | cons a l => rfl

/-- When some credentials field is reported, validation returns the error list. -/
theorem validateCredentialsPayload_error_of_mem (p : RawCredentialsPayload) {name : String}
    (hm : name ∈ credentialsErrors p) :
    validateCredentialsPayload p = .error (credentialsErrors p) := by
  unfold validateCredentialsPayload
  cases hE : credentialsErrors p with
  | nil => rw [hE] at hm; cases hm
  | cons a l => rfl

/-- A payload carrying only the two required credential fields. -/
def minimalPayload : RawScreeningPayload :=
  { appKey := some "key", appSecret := some "secret" }

/-- A valid payload used when exercising downstream error translation. -/
def validPayload : RawScreeningPayload :=
  { appKey := some "key", appSecret := some "secret", ma60Enabled := some true,
    ma60Min := some 90, ma60Max := some 110 }

/-- A payload whose `bbPosition` is outside the declared enum set. -/
def oobPositionPayload : RawScreeningPayload :=
  { appKey := some "key", appSecret := some "secret", bbPosition := some "sideways" }

/-- A payload with the MA60 family disabled but its threshold out of range. -/
def disabled60Payload : RawScreeningPayload :=
  { appKey := some "key", appSecret := some "secret",
    ma60Enabled := some false, ma60Min := some 500 }

/-- A JSON error body as a downstream engine might emit on rejection. -/
def downErrorBody : Json := .obj [("code", .str "ENGINE_DOWN")]

/-- C1: for every screen request that passes validation, a downstream timeout
yields exactly a 504 response with the fixed timeout message, and a connection
failure yields exactly a 503 response with the fixed unreachable message —
two distinct statuses, each produced by a single forwarding attempt. -/
theorem screen_timeout_504_connect_503 (p : RawScreeningPayload)
    (req : ScreeningRequest) (ts e e2 : String)
    (h : validateScreening p = .ok req) :
    screen_stocks p (fun _ => .timeout e) ts
      = ⟨504, .obj [("error", .str screenTimeoutDetail), ("timestamp", .str ts)]⟩ ∧
    screen_stocks p (fun _ => .connectError e2) ts
      = ⟨503, .obj [("error", .str screenConnectDetail), ("timestamp", .str ts)]⟩ := by
  unfold screen_stocks
  rw [h]
  exact ⟨rfl, rfl⟩

/-- Witness for C1 at a concrete valid payload. -/
theorem screen_timeout_504_connect_503_witness :
    screen_stocks minimalPayload (fun _ => .timeout "read timeout") "T"
      = ⟨504, .obj [("error", .str screenTimeoutDetail), ("timestamp", .str "T")]⟩ ∧
    screen_stocks minimalPayload (fun _ => .connectError "refused") "T"
      = ⟨503, .obj [("error", .str screenConnectDetail), ("timestamp", .str "T")]⟩ :=
  screen_timeout_504_connect_503 minimalPayload (fillScreening minimalPayload)
    "T" "read timeout" "refused" rfl

/-- C2 counterexample: a downstream 502 with JSON body is answered with the
same status 502 but a different body — the downstream body is wrapped under
the `error` key of the gateway envelope, so the bodies are not equal. -/
theorem screen_passthrough_counterexample :
    screen_stocks validPayload (fun _ => .response 502 (.json downErrorBody)) "T"
      = ⟨502, .obj [("error", downErrorBody), ("timestamp", .str "T")]⟩ ∧
    Json.obj [("error", downErrorBody), ("timestamp", .str "T")] ≠ downErrorBody := by
  refine ⟨rfl, fun hEq => ?_⟩
  have hk := congrArg (fun j => Json.hasKey j "timestamp") hEq
  simp [Json.hasKey, downErrorBody] at hk

/-- C2 amended: on a downstream non-200 with a JSON body, the gateway answers
with the same status code, and with the downstream body carried verbatim
under the `error` key of the gateway's error envelope (alongside a
timestamp), not as the bare response body. -/
theorem screen_downstream_error_same_status (p : RawScreeningPayload)
    (req : ScreeningRequest) (s : Nat) (j : Json) (ts : String)
    (h : validateScreening p = .ok req) (hs : s ≠ 200) :
    screen_stocks p (fun _ => .response s (.json j)) ts
      = ⟨s, .obj [("error", j), ("timestamp", .str ts)]⟩ := by
  unfold screen_stocks
  rw [h]
  show renderResult ts (if s ≠ 200 then HandlerResult.httpErr s j
    else if j.isObj then HandlerResult.ok j
    else HandlerResult.httpErr 500
      (.str ("스크리닝 중 오류 발생: " ++ attributeErrorGet j))) = _
  rw [if_pos hs]
  rfl

/-- Witness for the amended C2 at a concrete non-200 status. -/
theorem screen_downstream_error_same_status_witness :
    screen_stocks validPayload (fun _ => .response 418 (.json downErrorBody)) "T"
      = ⟨418, .obj [("error", downErrorBody), ("timestamp", .str "T")]⟩ :=
  screen_downstream_error_same_status validPayload (fillScreening validPayload)
    418 downErrorBody "T" rfl (by decide)

/-- C3: a screen payload with any field outside its declared bound is
rejected by validation with a 4xx (422) response naming the offending field,
and the response is independent of the downstream behavior — no downstream
call is made. -/
theorem screen_rejects_out_of_bound_field (p : RawScreeningPayload)
    (name ts ts2 : String) (down down2 : ScreeningRequest → DownstreamBehavior)
    (h : FieldOutOfBound p name) :
    ∃ errs : List String,
      validateScreening p = .error errs ∧
      name ∈ errs ∧
      screen_stocks p down ts = ⟨422, .obj [("detail", .arr (errs.map Json.str))]⟩ ∧
      400 ≤ (screen_stocks p down ts).status ∧
      (screen_stocks p down ts).status < 500 ∧
      screen_stocks p down ts = screen_stocks p down2 ts2 := by
  have hm := mem_screeningErrors_of_oob h
  have hv := validateScreening_error_of_mem p hm
  have hs : ∀ (d : ScreeningRequest → DownstreamBehavior) (t : String),
      screen_stocks p d t = validationErrorResponse (screeningErrors p) := by
    intro d t
    unfold screen_stocks
    rw [hv]
  refine ⟨screeningErrors p, hv, hm, ?_, ?_, ?_, ?_⟩
  · rw [hs]; rfl
  · rw [hs]; show (400 : Nat) ≤ 422; decide
  · rw [hs]; show (422 : Nat) < 500; decide
  · rw [hs, hs]

/-- Witness for C3: `bbPosition = "sideways"` is rejected with a 422 naming
`bbPosition`, identically under two different downstream behaviors. -/
theorem screen_rejects_out_of_bound_field_witness :
    ∃ errs : List String,
      validateScreening oobPositionPayload = .error errs ∧
      "bbPosition" ∈ errs ∧
      screen_stocks oobPositionPayload (fun _ => .timeout "t") "T"
        = ⟨422, .obj [("detail", .arr (errs.map Json.str))]⟩ ∧
      400 ≤ (screen_stocks oobPositionPayload (fun _ => .timeout "t") "T").status ∧
      (screen_stocks oobPositionPayload (fun _ => .timeout "t") "T").status < 500 ∧
      screen_stocks oobPositionPayload (fun _ => .timeout "t") "T"
        = screen_stocks oobPositionPayload (fun _ => .response 200 (.json .null)) "U" :=
  screen_rejects_out_of_bound_field oobPositionPayload "bbPosition" "T" "U"
    (fun _ => .timeout "t") (fun _ => .response 200 (.json .null))
    (FieldOutOfBound.bbPosition rfl (by decide))

/-- C4: threshold fields are range-checked unconditionally on the enable
flags — a payload with an out-of-bound threshold is rejected naming that
field, and replacing every family's enable flag by any combination of values
leaves the validation error list unchanged. -/
theorem disabled_family_thresholds_still_checked (p : RawScreeningPayload)
    (name : String) (h : FieldOutOfBound p name) :
    ∃ errs : List String,
      validateScreening p = .error errs ∧
      name ∈ errs ∧
      ∀ e60 e112 e224 ebb evol epc emc eper eal : Option Bool,
        validateScreening { p with
          ma60Enabled := e60, ma112Enabled := e112, ma224Enabled := e224,
          bbEnabled := ebb, volumeEnabled := evol, priceChangeEnabled := epc,
          marketCapEnabled := emc, perEnabled := eper,
          maAlignment := eal } = .error errs := by
  have hm := mem_screeningErrors_of_oob h
  refine ⟨screeningErrors p, validateScreening_error_of_mem p hm, hm, ?_⟩
  intro e60 e112 e224 ebb evol epc emc eper eal
  exact validateScreening_error_of_mem
    { p with
      ma60Enabled := e60, ma112Enabled := e112, ma224Enabled := e224,
      bbEnabled := ebb, volumeEnabled := evol, priceChangeEnabled := epc,
      marketCapEnabled := emc, perEnabled := eper, maAlignment := eal } hm

/-- Witness for C4: `ma60Enabled = false` with `ma60Min = 500` still rejects
naming `ma60Min`, and the rejection is identical for every flag combination. -/
theorem disabled_family_thresholds_still_checked_witness :
    ∃ errs : List String,
      validateScreening disabled60Payload = .error errs ∧
      "ma60Min" ∈ errs ∧
      ∀ e60 e112 e224 ebb evol epc emc eper eal : Option Bool,
        validateScreening { disabled60Payload with
          ma60Enabled := e60, ma112Enabled := e112, ma224Enabled := e224,
          bbEnabled := ebb, volumeEnabled := evol, priceChangeEnabled := epc,
          marketCapEnabled := emc, perEnabled := eper,
          maAlignment := eal } = .error errs :=
  disabled_family_thresholds_still_checked disabled60Payload "ma60Min"
    (FieldOutOfBound.ma60Min rfl (by decide))

/-- A syntactically valid credentials payload. -/
def credPayload : RawCredentialsPayload :=
  { appKey := some "key", appSecret := some "secret" }

/-- C5 counterexample: a downstream 401 whose body text is empty (so
`response.json()` raises before the status check) is answered with a gateway
500, and so is a downstream 401 whose body parses to the non-dict JSON value
`[]` (`result.get("message", ...)` raises `AttributeError`) — in neither case
the 200 `valid:false` payload the claim requires. -/
theorem credentials_non200_counterexample :
    validate_credentials credPayload (fun _ => .response 401 .empty) "T"
      = ⟨500, .obj [("error", .str ("인증 검증 중 오류 발생: " ++ emptyTextDecodeError)),
                    ("timestamp", .str "T")]⟩ ∧
    validate_credentials credPayload (fun _ => .response 401 (.json (.arr []))) "T"
      = ⟨500, .obj [("error",
            .str "인증 검증 중 오류 발생: 'list' object has no attribute 'get'"),
          ("timestamp", .str "T")]⟩ ∧
    (500 : Nat) ≠ 200 :=
  ⟨rfl, rfl, by decide⟩

/-- On a non-200 response with a dict body, the credentials handler body
answers `valid false` with the downstream message field or the default. -/
theorem credentialsOutcome_non200_obj (s : Nat) (fields : List (String × Json))
    (hs : s ≠ 200) :
    credentialsOutcome (.response s (.json (.obj fields)))
      = .ok (.obj [("valid", .bool false),
          ("message", Json.getD (.obj fields) "message" (.str "인증 실패"))]) := by
  show (if s = 200 then HandlerResult.ok
        (.obj [("valid", .bool true), ("message", .str "인증 성공")])
      else HandlerResult.ok (.obj [("valid", .bool false),
        ("message", Json.getD (.obj fields) "message" (.str "인증 실패"))])) = _
  rw [if_neg hs]

/-- On a non-200 response with a non-dict body, `result.get` raises
`AttributeError` and the credentials handler answers 500. -/
theorem credentialsOutcome_non200_nonobj (s : Nat) (j : Json)
    (hs : s ≠ 200) (hobj : j.isObj = false) :
    credentialsOutcome (.response s (.json j))
      = .httpErr 500 (.str ("인증 검증 중 오류 발생: " ++ attributeErrorGet j)) := by
  cases j with
  | obj fields => simp [Json.isObj] at hobj
  | null => show (if s = 200 then _ else _) = _; rw [if_neg hs]
  | bool b => show (if s = 200 then _ else _) = _; rw [if_neg hs]
  | int n => show (if s = 200 then _ else _) = _; rw [if_neg hs]
  | float x => show (if s = 200 then _ else _) = _; rw [if_neg hs]
  | str t => show (if s = 200 then _ else _) = _; rw [if_neg hs]
  | arr a => show (if s = 200 then _ else _) = _; rw [if_neg hs]

/-- C5 amended: a downstream 200 with a parseable body maps to `valid:true`;
any other status with a body that parses to a JSON object maps to
`valid:false` with the downstream message field or a default, at gateway
status 200 with no downstream status propagated; any exception during the
call — a transport failure, any other exception, the JSON decode failure
raised by an empty or unparseable body (parsed before the status check), or
the `AttributeError` raised by `result.get` on a non-200 body that parses to
a non-object — yields a gateway 500. -/
theorem validate_credentials_mapping (p : RawCredentialsPayload)
    (req : CredentialsRequest) (ts : String)
    (h : validateCredentialsPayload p = .ok req) :
    (∀ j, validate_credentials p (fun _ => .response 200 (.json j)) ts
        = ⟨200, .obj [("valid", .bool true), ("message", .str "인증 성공")]⟩) ∧
    (∀ (s : Nat) (fields : List (String × Json)), s ≠ 200 →
      validate_credentials p (fun _ => .response s (.json (.obj fields))) ts
        = ⟨200, .obj [("valid", .bool false),
            ("message", Json.getD (.obj fields) "message" (.str "인증 실패"))]⟩) ∧
    (∀ (s : Nat) (j : Json), s ≠ 200 → j.isObj = false →
      validate_credentials p (fun _ => .response s (.json j)) ts
        = ⟨500, .obj [("error",
              .str ("인증 검증 중 오류 발생: " ++ attributeErrorGet j)),
            ("timestamp", .str ts)]⟩) ∧
    (∀ e, validate_credentials p (fun _ => .timeout e) ts
        = ⟨500, .obj [("error", .str ("인증 검증 중 오류 발생: " ++ e)),
                      ("timestamp", .str ts)]⟩) ∧
    (∀ e, validate_credentials p (fun _ => .connectError e) ts
        = ⟨500, .obj [("error", .str ("인증 검증 중 오류 발생: " ++ e)),
                      ("timestamp", .str ts)]⟩) ∧
    (∀ e, validate_credentials p (fun _ => .otherExn e) ts
        = ⟨500, .obj [("error", .str ("인증 검증 중 오류 발생: " ++ e)),
                      ("timestamp", .str ts)]⟩) ∧
    (∀ (s : Nat) (e : String),
      validate_credentials p (fun _ => .response s (.unparseable e)) ts
        = ⟨500, .obj [("error", .str ("인증 검증 중 오류 발생: " ++ e)),
                      ("timestamp", .str ts)]⟩) ∧
    (∀ s : Nat, validate_credentials p (fun _ => .response s .empty) ts
        = ⟨500, .obj [("error", .str ("인증 검증 중 오류 발생: " ++ emptyTextDecodeError)),
                      ("timestamp", .str ts)]⟩) := by
  unfold validate_credentials
  rw [h]
  refine ⟨fun j => rfl, fun s fields hs => ?_, fun s j hs hobj => ?_,
    fun e => rfl, fun e => rfl, fun e => rfl, fun s e => rfl, fun s => rfl⟩
  · show renderResult ts (credentialsOutcome (.response s (.json (.obj fields)))) = _
    rw [credentialsOutcome_non200_obj s fields hs]
    rfl
  · show renderResult ts (credentialsOutcome (.response s (.json j))) = _
    rw [credentialsOutcome_non200_nonobj s j hs hobj]
    rfl

/-- Witness for the amended C5: downstream 200, 401 with a dict body, 401
with a non-dict body, and a connection failure, all at concrete inputs. -/
theorem validate_credentials_mapping_witness :
    validate_credentials credPayload (fun _ => .response 200 (.json (.obj []))) "T"
      = ⟨200, .obj [("valid", .bool true), ("message", .str "인증 성공")]⟩ ∧
    validate_credentials credPayload
        (fun _ => .response 401 (.json (.obj [("message", .str "bad key")]))) "T"
      = ⟨200, .obj [("valid", .bool false), ("message", .str "bad key")]⟩ ∧
    validate_credentials credPayload (fun _ => .response 401 (.json .null)) "T"
      = ⟨500, .obj [("error",
            .str "인증 검증 중 오류 발생: 'NoneType' object has no attribute 'get'"),
          ("timestamp", .str "T")]⟩ ∧
    validate_credentials credPayload (fun _ => .connectError "refused") "T"
      = ⟨500, .obj [("error", .str ("인증 검증 중 오류 발생: " ++ "refused")),
                    ("timestamp", .str "T")]⟩ := by
  obtain ⟨h200, hObj, hNonObj, _, hConn, _, _, _⟩ :=
    validate_credentials_mapping credPayload ⟨"key", "secret"⟩ "T" rfl
  exact ⟨h200 (.obj []), hObj 401 [("message", .str "bad key")] (by decide),
    hNonObj 401 .null (by decide) rfl, hConn "refused"⟩

/-- C6: the claim matches the evident intent (the handler raises
`HTTPException(response.status_code, fixed message)`), but the handler's own
blanket `except Exception` catches that same exception, so a downstream 404
is surfaced as a 500 whose detail stringifies the swallowed exception — the
downstream status is not carried as the gateway status. -/
theorem stock_codes_non200_becomes_500 :
    get_stock_codes (.response 404 (.json (.arr []))) "T"
      = ⟨500, .obj [("error",
            .str "종목 코드 조회 중 오류 발생: 404: 종목 코드 조회 실패"),
          ("timestamp", .str "T")]⟩ ∧
    (500 : Nat) ≠ 404 ∧
    (∀ e, get_stock_codes (.timeout e) "T"
      = ⟨500, .obj [("error", .str ("종목 코드 조회 중 오류 발생: " ++ e)),
                    ("timestamp", .str "T")]⟩) :=
  ⟨rfl, by decide, fun e => rfl⟩

/-- A payload with no fields at all (both required credentials absent). -/
def emptyPayload : RawScreeningPayload := {}

/-- C7 counterexample: the response to a validation failure is produced by
FastAPI's request-validation handler, whose body has a `detail` field but no
`timestamp` field — the uniform error+timestamp envelope does not cover
validation failures. -/
theorem validation_error_lacks_timestamp :
    screen_stocks emptyPayload (fun _ => .timeout "t") "T"
      = ⟨422, .obj [("detail", .arr [.str "appKey", .str "appSecret"])]⟩ ∧
    Json.hasKey
      (screen_stocks emptyPayload (fun _ => .timeout "t") "T").body "timestamp" = false ∧
    Json.hasKey
      (screen_stocks emptyPayload (fun _ => .timeout "t") "T").body "detail" = true :=
  ⟨rfl, by decide, by decide⟩

/-- C7 amended: every response of the two registered exception handlers (for
raised `HTTPException`s — downstream timeout, unreachability, passthrough
errors — and for arbitrary uncaught exceptions) is a JSON object with an
`error` field and a `timestamp` field; the validation-failure response has a
`detail` field but never a `timestamp` field. -/
theorem error_envelope_shape (ts emsg : String) (s : Nat) (d : Json)
    (errs : List String) :
    Json.hasKey (renderResult ts (.httpErr s d)).body "error" = true ∧
    Json.hasKey (renderResult ts (.httpErr s d)).body "timestamp" = true ∧
    Json.hasKey (general_exception_handler ts emsg).body "error" = true ∧
    Json.hasKey (general_exception_handler ts emsg).body "detail" = true ∧
    Json.hasKey (general_exception_handler ts emsg).body "timestamp" = true ∧
    Json.hasKey (validationErrorResponse errs).body "detail" = true ∧
    Json.hasKey (validationErrorResponse errs).body "timestamp" = false :=
  ⟨rfl, rfl, rfl, rfl, rfl, rfl, rfl⟩

/-- A screening payload whose credentials are present but empty strings. -/
def emptyStringsPayload : RawScreeningPayload :=
  { appKey := some "", appSecret := some "" }

/-- A credentials payload whose two fields are present but empty strings. -/
def emptyStringsCreds : RawCredentialsPayload :=
  { appKey := some "", appSecret := some "" }

/-- A credentials payload missing `appSecret`. -/
def missingSecretCreds : RawCredentialsPayload := { appKey := some "key" }

/-- A credentials payload missing `appKey`. -/
def missingKeyCreds : RawCredentialsPayload := { appSecret := some "secret" }

/-- A screening payload missing only `appSecret`. -/
def missingSecretPayload : RawScreeningPayload := { appKey := some "key" }

/-- C8 counterexample: a payload whose `appKey` and `appSecret` are the empty
string passes validation of both request models — no non-empty check is
declared on either field. -/
theorem empty_string_credentials_accepted :
    validateScreening emptyStringsPayload = .ok (fillScreening emptyStringsPayload) ∧
    (fillScreening emptyStringsPayload).appKey = "" ∧
    (fillScreening emptyStringsPayload).appSecret = "" ∧
    validateCredentialsPayload emptyStringsCreds = .ok ⟨"", ""⟩ :=
  ⟨rfl, rfl, rfl, rfl⟩

/-- C8 amended: `appKey` and `appSecret` are required in both request models —
a payload in which either field is absent is rejected naming that field, in
the screening model and in the credentials model alike — but present empty
strings are accepted (no minimum length is enforced). -/
theorem credentials_required_but_empty_allowed
    (p p2 : RawScreeningPayload) (q q2 : RawCredentialsPayload)
    (hp : p.appKey = none) (hp2 : p2.appSecret = none)
    (hq : q.appKey = none) (hq2 : q2.appSecret = none) :
    (∃ errs, validateScreening p = .error errs ∧ "appKey" ∈ errs) ∧
    (∃ errs, validateScreening p2 = .error errs ∧ "appSecret" ∈ errs) ∧
    (∃ errs, validateCredentialsPayload q = .error errs ∧ "appKey" ∈ errs) ∧
    (∃ errs, validateCredentialsPayload q2 = .error errs ∧ "appSecret" ∈ errs) ∧
    validateScreening emptyStringsPayload = .ok (fillScreening emptyStringsPayload) ∧
    validateCredentialsPayload emptyStringsCreds = .ok ⟨"", ""⟩ := by
  have hm : "appKey" ∈ screeningErrors p := by
    simp [screeningErrors, requiredErr, hp]
  have hm2 : "appSecret" ∈ screeningErrors p2 := by
    simp [screeningErrors, requiredErr, hp2]
  have hm3 : "appKey" ∈ credentialsErrors q := by
    simp [credentialsErrors, requiredErr, hq]
  have hm4 : "appSecret" ∈ credentialsErrors q2 := by
    simp [credentialsErrors, requiredErr, hq2]
  exact ⟨⟨screeningErrors p, validateScreening_error_of_mem p hm, hm⟩,
    ⟨screeningErrors p2, validateScreening_error_of_mem p2 hm2, hm2⟩,
    ⟨credentialsErrors q, validateCredentialsPayload_error_of_mem q hm3, hm3⟩,
    ⟨credentialsErrors q2, validateCredentialsPayload_error_of_mem q2 hm4, hm4⟩,
    rfl, rfl⟩

/-- Witness for the amended C8: each model with `appKey` absent and with
`appSecret` absent, at concrete payloads. -/
theorem credentials_required_but_empty_allowed_witness :
    (∃ errs, validateScreening emptyPayload = .error errs ∧ "appKey" ∈ errs) ∧
    (∃ errs, validateScreening missingSecretPayload = .error errs ∧
      "appSecret" ∈ errs) ∧
    (∃ errs, validateCredentialsPayload missingKeyCreds = .error errs ∧
      "appKey" ∈ errs) ∧
    (∃ errs, validateCredentialsPayload missingSecretCreds = .error errs ∧
      "appSecret" ∈ errs) ∧
    validateScreening emptyStringsPayload = .ok (fillScreening emptyStringsPayload) ∧
    validateCredentialsPayload emptyStringsCreds = .ok ⟨"", ""⟩ :=
  credentials_required_but_empty_allowed emptyPayload missingSecretPayload
    missingKeyCreds missingSecretCreds rfl rfl rfl rfl

/-- C9: the health endpoint always answers 200; the composite status is
`healthy` exactly when the probe delivered a response with status 200 and
`degraded` otherwise — timeout, connection error, other exception, and every
non-200 response are treated identically — and the gateway's own service
entry is always `healthy`. -/
theorem health_check_always_200 (b : DownstreamBehavior) (ts : String) :
    health_check b ts
      = ⟨200, .obj [("status", .str (if kotlinHealthy b then "healthy" else "degraded")),
          ("services", .obj [("gateway", .str "healthy"),
            ("kotlin_screener",
              .str (if kotlinHealthy b then "healthy" else "unhealthy"))]),
          ("timestamp", .str ts)]⟩ ∧
    (health_check b ts).status = 200 ∧
    (kotlinHealthy b = true ↔ ∃ body, b = .response 200 body) := by
  refine ⟨rfl, rfl, ?_⟩
  cases b <;> simp [kotlinHealthy]

/-- C10: a payload containing only `appKey` and `appSecret` validates, every
other field taking its declared default — `ma112Enabled`, `excludeETF` and
`excludeETN` default to true — and the handler forwards exactly that
default-filled model to the downstream call. -/
theorem minimal_payload_fills_defaults :
    validateScreening minimalPayload = .ok
      { appKey := "key", appSecret := "secret", isProduction := false,
        ma60Enabled := false, ma60Min := 95, ma60Max := 105,
        ma112Enabled := true, ma112Min := 95, ma112Max := 105,
        ma224Enabled := false, ma224Min := 95, ma224Max := 105,
        bbEnabled := false, bbPeriod := 20, bbMultiplier := 2,
        bbPosition := "all", bbUpperBreak := false, bbLowerBreak := false,
        volumeEnabled := false, volumeMultiple := 3/2,
        priceChangeEnabled := false, priceChangeMin := -100, priceChangeMax := 100,
        excludeETF := true, excludeETN := true, excludeManagement := false,
        marketCapEnabled := false, marketCapMin := 0,
        marketCapMax := 1000000000000,
        perEnabled := false, perMin := 0, perMax := 30,
        maAlignment := false, targetCodes := [] } ∧
    (fillScreening minimalPayload).ma112Enabled = true ∧
    (fillScreening minimalPayload).excludeETF = true ∧
    (fillScreening minimalPayload).excludeETN = true ∧
    ∀ (ts : String) (down : ScreeningRequest → DownstreamBehavior),
      screen_stocks minimalPayload down ts
        = renderResult ts (screenOutcome (down (fillScreening minimalPayload))) :=
  ⟨rfl, rfl, rfl, rfl, fun _ _ => rfl⟩
